import Mathlib

/-!
Shallow embedding of `tonic/src/transport/endpoint.rs`: the `Endpoint`
channel builder, its constructors and setters, and the `ClientTlsConfig`
TLS-settings builder with its `tls_connector` resolution function.

Machine integers (`usize`, `u64`, `u32`) only flow through this core as
stored configuration values; they are modelled as `Nat`.  `std::time::Duration`
is modelled as a seconds/nanoseconds pair.  Fallible Rust functions returning
`Result` are modelled with `Except`; a Rust panic is modelled as `none` of an
`Option` result.
-/

set_option autoImplicit false

namespace Tonic

/-- Model of `std::time::Duration`: a seconds/nanoseconds pair. -/
structure Duration where
  secs : Nat
  nanos : Nat
deriving DecidableEq, Repr

/-- Model of `Duration::from_secs`. -/
def Duration.from_secs (n : Nat) : Duration := ⟨n, 0⟩

/-- Bytes are modelled as lists of natural numbers (byte values). -/
abbrev Bytes := List Nat

/-- Modelled from the spec: byte conversion of text (`String::into_bytes`).
Address texts are ASCII, where code points and UTF-8 bytes coincide. -/
def intoBytes (s : String) : Bytes := s.data.map Char.toNat

/-- Rendering a byte sequence back to text (inverse of `intoBytes`). -/
def bytesToText (bs : Bytes) : String := String.mk (bs.map Char.ofNat)

/-- Modelled from the spec: scheme bytes of a target URI (letters, digits,
`+`, `-`, `.`). -/
def isSchemeByte (b : Nat) : Bool :=
  (97 ≤ b && b ≤ 122) || (65 ≤ b && b ≤ 90) || (48 ≤ b && b ≤ 57) ||
    b == 43 || b == 45 || b == 46

/-- Modelled from the spec: bytes allowed after `scheme://` in an address
(printable ASCII, no whitespace). -/
def isAuthorityByte (b : Nat) : Bool := 33 ≤ b && b ≤ 126

/-- Split a byte list at the first colon (`:` = 58): returns the bytes
before it and the bytes after it, or `none` when no colon occurs. -/
def splitAtColon : Bytes → Option (Bytes × Bytes)
  | [] => none
  | 58 :: rest => some ([], rest)
  | b :: rest =>
    match splitAtColon rest with
    | some (s, r) => some (b :: s, r)
    | none => none

/-- Modelled from the spec: validity of an address byte sequence as a
target URI ("validated authority+scheme value"): a non-empty scheme,
the separator `://`, and a non-empty remainder of printable bytes. -/
def isValidUriBytes (bs : Bytes) : Bool :=
  match splitAtColon bs with
  | none => false
  | some (scheme, rest) =>
    match rest with
    | 47 :: 47 :: authority =>
      !scheme.isEmpty && scheme.all isSchemeByte &&
        !authority.isEmpty && authority.all isAuthorityByte
    | _ => false

/-- Model of `http::uri::InvalidUriBytes`, the URI parse error. -/
inductive UriParseError where
  | invalidUriBytes
deriving DecidableEq, Repr

/-- Modelled from the spec: the validated target URI value (`http::Uri`),
carrying the validated bytes it was parsed from. -/
structure Uri where
  bytes : Bytes
deriving DecidableEq, Repr

/-- Modelled from the spec: textual rendering of a target URI
(`Uri::to_string`). -/
def Uri.render (u : Uri) : String := bytesToText u.bytes

/-- Modelled from the spec: `Uri::from_shared` — validates a byte sequence
and wraps it as a URI, or reports `InvalidUriBytes`; never panics. -/
def Uri.from_shared (bs : Bytes) : Except UriParseError Uri :=
  if isValidUriBytes bs then .ok ⟨bs⟩ else .error .invalidUriBytes

/-- Modelled from the spec: `Uri::from_static` — parses a trusted constant,
panicking (modelled as `none`) on malformed input. -/
def Uri.from_static (s : String) : Option Uri :=
  match Uri.from_shared (intoBytes s) with
  | .ok u => some u
  | .error _ => none

/-- Model of `tonic::transport::tls::Certificate`; `wellFormed` models
whether the certificate material is acceptable to the TLS backend. -/
structure Certificate where
  der : Bytes
  wellFormed : Bool
deriving DecidableEq, Repr

/-- Model of `tonic::transport::tls::Identity`; `wellFormed` models whether
the identity material is acceptable to the TLS backend. -/
structure Identity where
  der : Bytes
  wellFormed : Bool
deriving DecidableEq, Repr

/-- Model of `tonic::transport::tls::TlsProvider`: the closed set of TLS
backends. -/
inductive TlsProvider where
  | openSsl
  | rustls
deriving DecidableEq, Repr

/-- Model of `openssl1::ssl::SslConnector`, the OpenSSL raw override;
`supported` models whether the backend accepts the raw object. -/
structure SslConnector where
  tag : Nat
  supported : Bool
deriving DecidableEq, Repr

/-- Model of `tokio_rustls::rustls::ClientConfig`, the Rustls raw override;
`supported` models whether the backend accepts the raw object. -/
structure RustlsClientConfig where
  tag : Nat
  supported : Bool
deriving DecidableEq, Repr

/-- Modelled from the spec: the resolution error of a backend connector
constructor (bad certificate material, unsupported raw object). -/
inductive TlsError where
  | badCertMaterial
  | unsupportedRaw
deriving DecidableEq, Repr

/-- Modelled from the spec: a concrete resolved TLS connector, recording
which constructor path built it and the verification domain. -/
inductive TlsConnector where
  | opensslCert (cert : Option Certificate) (ident : Option Identity) (domain : String)
  | opensslRaw (raw : SslConnector) (domain : String)
  | rustlsCert (cert : Option Certificate) (ident : Option Identity) (domain : String)
  | rustlsRaw (raw : RustlsClientConfig) (domain : String)
deriving DecidableEq, Repr

/-- The verification domain a resolved connector is configured with. -/
def TlsConnector.domain : TlsConnector → String
  | .opensslCert _ _ d => d
  | .opensslRaw _ d => d
  | .rustlsCert _ _ d => d
  | .rustlsRaw _ d => d

/-- Modelled from the spec: `TlsConnector::new_with_openssl_cert`
(`buildFromCertAndIdentity` for OpenSSL); fails on bad material. -/
def TlsConnector.new_with_openssl_cert (cert : Option Certificate)
    (ident : Option Identity) (domain : String) : Except TlsError TlsConnector :=
  if cert.all (·.wellFormed) && ident.all (·.wellFormed) then
    .ok (.opensslCert cert ident domain)
  else .error .badCertMaterial

/-- Modelled from the spec: `TlsConnector::new_with_openssl_raw`
(`buildFromRaw` for OpenSSL); fails on an unsupported raw object. -/
def TlsConnector.new_with_openssl_raw (raw : SslConnector)
    (domain : String) : Except TlsError TlsConnector :=
  if raw.supported then .ok (.opensslRaw raw domain) else .error .unsupportedRaw

/-- Modelled from the spec: `TlsConnector::new_with_rustls_cert`
(`buildFromCertAndIdentity` for Rustls); fails on bad material. -/
def TlsConnector.new_with_rustls_cert (cert : Option Certificate)
    (ident : Option Identity) (domain : String) : Except TlsError TlsConnector :=
  if cert.all (·.wellFormed) && ident.all (·.wellFormed) then
    .ok (.rustlsCert cert ident domain)
  else .error .badCertMaterial

/-- Modelled from the spec: `TlsConnector::new_with_rustls_raw`
(`buildFromRaw` for Rustls); fails on an unsupported raw object. -/
def TlsConnector.new_with_rustls_raw (raw : RustlsClientConfig)
    (domain : String) : Except TlsError TlsConnector :=
  if raw.supported then .ok (.rustlsRaw raw domain) else .error .unsupportedRaw

/-- Model of `http::HeaderMap` (only stored by this core, never inspected). -/
structure HeaderMap where
  headers : List (String × String)

/-- `struct ClientTlsConfig` (endpoint.rs, lines 211–220). -/
structure ClientTlsConfig where
  provider : TlsProvider
  domain : Option String
  cert : Option Certificate
  identity : Option Identity
  openssl_raw : Option SslConnector
  rustls_raw : Option RustlsClientConfig

/-- `ClientTlsConfig::new` (endpoint.rs, lines 248–259). -/
def ClientTlsConfig.new (provider : TlsProvider) : ClientTlsConfig :=
  ⟨provider, none, none, none, none, none⟩

/-- `ClientTlsConfig::with_openssl` (endpoint.rs, lines 238–240). -/
def ClientTlsConfig.with_openssl : ClientTlsConfig :=
  ClientTlsConfig.new .openSsl

/-- `ClientTlsConfig::with_rustls` (endpoint.rs, lines 244–246). -/
def ClientTlsConfig.with_rustls : ClientTlsConfig :=
  ClientTlsConfig.new .rustls

/-- `ClientTlsConfig::domain_name` (endpoint.rs, lines 262–265). -/
def ClientTlsConfig.domain_name (self : ClientTlsConfig) (d : String) : ClientTlsConfig :=
  { self with domain := some d }

/-- `ClientTlsConfig::ca_certificate` (endpoint.rs, lines 268–271). -/
def ClientTlsConfig.ca_certificate (self : ClientTlsConfig) (c : Certificate) : ClientTlsConfig :=
  { self with cert := some c }

/-- `ClientTlsConfig::identity` (endpoint.rs, lines 274–277). -/
def ClientTlsConfig.set_identity (self : ClientTlsConfig) (i : Identity) : ClientTlsConfig :=
  { self with identity := some i }

/-- `ClientTlsConfig::openssl_connector` (endpoint.rs, lines 283–286). -/
def ClientTlsConfig.openssl_connector (self : ClientTlsConfig) (c : SslConnector) : ClientTlsConfig :=
  { self with openssl_raw := some c }

/-- `ClientTlsConfig::rustls_client_config` (endpoint.rs, lines 292–298). -/
def ClientTlsConfig.rustls_client_config (self : ClientTlsConfig) (c : RustlsClientConfig) : ClientTlsConfig :=
  { self with rustls_raw := some c }

/-- The `let domain = ...` step of `ClientTlsConfig::tls_connector`
(endpoint.rs, lines 301–304): `domain_override` if present, else the
textual rendering of the target URI. -/
def ClientTlsConfig.resolvedDomain (self : ClientTlsConfig) (uri : Uri) : String :=
  match self.domain with
  | none => uri.render
  | some d => d

/-- `ClientTlsConfig::tls_connector` (endpoint.rs, lines 300–325). -/
def ClientTlsConfig.tls_connector (self : ClientTlsConfig) (uri : Uri) :
    Except TlsError TlsConnector :=
  let domain := self.resolvedDomain uri
  match self.provider with
  | .openSsl =>
    match self.openssl_raw with
    | none => TlsConnector.new_with_openssl_cert self.cert self.identity domain
    | some r => TlsConnector.new_with_openssl_raw r domain
  | .rustls =>
    match self.rustls_raw with
    | none => TlsConnector.new_with_rustls_cert self.cert self.identity domain
    | some c => TlsConnector.new_with_rustls_raw c domain

/-- `struct Endpoint` (endpoint.rs, lines 20–32). -/
structure Endpoint where
  uri : Uri
  timeout : Option Duration
  concurrency_limit : Option Nat
  rate_limit : Option (Nat × Duration)
  tls : Option TlsConnector
  buffer_size : Option Nat
  interceptor_headers : Option (HeaderMap → HeaderMap)
  init_stream_window_size : Option Nat
  init_connection_window_size : Option Nat

/-- `impl From<Uri> for Endpoint` (endpoint.rs, lines 150–165). -/
def Endpoint.fromUri (uri : Uri) : Endpoint :=
  { uri := uri
    concurrency_limit := none
    rate_limit := none
    timeout := none
    tls := none
    buffer_size := none
    interceptor_headers := none
    init_stream_window_size := none
    init_connection_window_size := none }

/-- `Endpoint::from_static` (endpoint.rs, lines 55–58); `Uri::from_static`
panics on malformed input, modelled as `none`. -/
def Endpoint.from_static (s : String) : Option Endpoint :=
  (Uri.from_static s).map Endpoint.fromUri

/-- `Endpoint::from_shared` (endpoint.rs, lines 66–69). -/
def Endpoint.from_shared (bs : Bytes) : Except UriParseError Endpoint :=
  match Uri.from_shared bs with
  | .ok uri => .ok (Endpoint.fromUri uri)
  | .error e => .error e

/-- `impl TryFrom<String> for Endpoint` (endpoint.rs, lines 175–181):
`Self::from_shared(t.into_bytes())`. -/
def Endpoint.tryFromString (t : String) : Except UriParseError Endpoint :=
  Endpoint.from_shared (intoBytes t)

/-- Spec-side definition of `fromText` for the refinement claim:
"equivalent to `fromOwnedBytes` via byte conversion". -/
def fromTextSpec (t : String) : Except UriParseError Endpoint :=
  Endpoint.from_shared (intoBytes t)

/-- `enum Never` (endpoint.rs, line 192): the uninhabited error type. -/
inductive Never : Type

/-- `impl TryFrom<&'static str> for Endpoint` (endpoint.rs, lines 183–189):
`Ok(Self::from_static(t))`; the outer `Option` models the panic of
`from_static` on malformed input. -/
def Endpoint.tryFromStaticStr (t : String) : Option (Except Never Endpoint) :=
  (Endpoint.from_static t).map .ok

/-- `Endpoint::timeout` (endpoint.rs, lines 79–82). -/
def Endpoint.setTimeout (self : Endpoint) (dur : Duration) : Endpoint :=
  { self with timeout := some dur }

/-- `Endpoint::concurrency_limit` (endpoint.rs, lines 91–94). -/
def Endpoint.setConcurrencyLimit (self : Endpoint) (limit : Nat) : Endpoint :=
  { self with concurrency_limit := some limit }

/-- `Endpoint::rate_limit` (endpoint.rs, lines 104–107). -/
def Endpoint.setRateLimit (self : Endpoint) (limit : Nat) (duration : Duration) : Endpoint :=
  { self with rate_limit := some (limit, duration) }

/-- `Endpoint::initial_stream_window_size` (endpoint.rs, lines 115–118);
the argument is `impl Into<Option<u32>>`, stored as given. -/
def Endpoint.initial_stream_window_size (self : Endpoint) (sz : Option Nat) : Endpoint :=
  { self with init_stream_window_size := sz }

/-- `Endpoint::initial_connection_window_size` (endpoint.rs, lines 123–126). -/
def Endpoint.initial_connection_window_size (self : Endpoint) (sz : Option Nat) : Endpoint :=
  { self with init_connection_window_size := sz }

/-- `Endpoint::intercept_headers` (endpoint.rs, lines 129–135). -/
def Endpoint.intercept_headers (self : Endpoint) (f : HeaderMap → HeaderMap) : Endpoint :=
  { self with interceptor_headers := some f }

/-- `Endpoint::tls_config` (endpoint.rs, lines 139–142):
`self.tls = Some(tls_config.tls_connector(self.uri.clone()).unwrap())`.
The `.unwrap()` panics when resolution fails; the panic is modelled as
`none`. -/
def Endpoint.tls_config (self : Endpoint) (cfg : ClientTlsConfig) : Option Endpoint :=
  match cfg.tls_connector self.uri with
  | .ok c => some { self with tls := some c }
  | .error _ => none

/-- Every optional field of an `Endpoint` is in its default-absent state. -/
def Endpoint.allOptionalsAbsent (e : Endpoint) : Prop :=
  e.timeout = none ∧ e.concurrency_limit = none ∧ e.rate_limit = none ∧
    e.tls = none ∧ e.buffer_size = none ∧ e.interceptor_headers = none ∧
    e.init_stream_window_size = none ∧ e.init_connection_window_size = none

/-- Overwrite only the reserved `buffer_size` field (used to state that no
operation of the core reads or writes it). -/
def Endpoint.withBuf (e : Endpoint) (v : Option Nat) : Endpoint :=
  { e with buffer_size := v }

/-- The example target URI of the spec, `https://example.com`. -/
def uriEx : Uri := ⟨intoBytes "https://example.com"⟩

/-- A fresh endpoint for the example target. -/
def endpointEx : Endpoint := Endpoint.fromUri uriEx

/-- A certificate whose material the TLS backend rejects. -/
def badCert : Certificate := ⟨[0], false⟩

/-- OpenSSL TLS settings carrying the rejected certificate: resolution of
these settings fails. -/
def badTlsCfg : ClientTlsConfig := ClientTlsConfig.with_openssl.ca_certificate badCert

/-- OpenSSL TLS settings with both a CA certificate and a raw override set. -/
def rawCfgEx : ClientTlsConfig :=
  (ClientTlsConfig.with_openssl.ca_certificate badCert).openssl_connector ⟨7, true⟩

/-- The connector obtained by resolving default OpenSSL settings against
the example target. -/
def connEx : TlsConnector := .opensslCert none none "https://example.com"

/-- The example endpoint after a successful `tls_config` call. -/
def epTls : Endpoint := { endpointEx with tls := some connEx }

/-! ## Helper lemmas -/

/-- Rendering the byte conversion of a text yields the text back. -/
theorem render_intoBytes (s : String) : bytesToText (intoBytes s) = s := by
  show String.mk ((s.data.map Char.toNat).map Char.ofNat) = s
  rw [List.map_map]
  have h : (Char.ofNat ∘ Char.toNat) = id := funext Char.ofNat_toNat
  rw [h, List.map_id]

/-- A connector built by the OpenSSL cert/identity constructor carries the
domain it was given. -/
theorem ok_domain_openssl_cert (cert : Option Certificate) (ident : Option Identity)
    (d : String) (c : TlsConnector)
    (h : TlsConnector.new_with_openssl_cert cert ident d = .ok c) : c.domain = d := by
  unfold TlsConnector.new_with_openssl_cert at h
  split at h
  · cases h
    rfl
  · exact nomatch h

/-- A connector built by the OpenSSL raw constructor carries the domain it
was given. -/
theorem ok_domain_openssl_raw (r : SslConnector) (d : String) (c : TlsConnector)
    (h : TlsConnector.new_with_openssl_raw r d = .ok c) : c.domain = d := by
  unfold TlsConnector.new_with_openssl_raw at h
  split at h
  · cases h
    rfl
  · exact nomatch h

/-- A connector built by the Rustls cert/identity constructor carries the
domain it was given. -/
theorem ok_domain_rustls_cert (cert : Option Certificate) (ident : Option Identity)
    (d : String) (c : TlsConnector)
    (h : TlsConnector.new_with_rustls_cert cert ident d = .ok c) : c.domain = d := by
  unfold TlsConnector.new_with_rustls_cert at h
  split at h
  · cases h
    rfl
  · exact nomatch h

/-- A connector built by the Rustls raw constructor carries the domain it
was given. -/
theorem ok_domain_rustls_raw (r : RustlsClientConfig) (d : String) (c : TlsConnector)
    (h : TlsConnector.new_with_rustls_raw r d = .ok c) : c.domain = d := by
  unfold TlsConnector.new_with_rustls_raw at h
  split at h
  · cases h
    rfl
  · exact nomatch h

/-! ## Claim theorems -/

/-- C1: the claim states that `tls_config` stores the resolved connector or
returns the resolution error to the caller, never panicking.  The code
contradicts it: `tls_config` calls `.unwrap()` on the result of
`tls_connector`, so a backend construction failure becomes a panic
(modelled as `none`).  At the failing input below, resolution returns an
error — which `tls_connector` duly propagates — and the setter turns it
into a panic instead of returning it. -/
theorem tls_config_unwrap_panics :
    badTlsCfg.tls_connector endpointEx.uri = .error .badCertMaterial ∧
    Endpoint.tls_config endpointEx badTlsCfg = none := ⟨rfl, rfl⟩

/-- C2: TLS resolution computes the verification domain as the settings'
`domain_override` (`domain` field) when present, and otherwise as the
textual rendering of the target URI. -/
theorem tls_resolution_domain (cfg : ClientTlsConfig) (uri : Uri) (c : TlsConnector)
    (h : cfg.tls_connector uri = .ok c) :
    c.domain = (match cfg.domain with
      | some d => d
      | none => uri.render) := by
  have hres : c.domain = cfg.resolvedDomain uri := by
    unfold ClientTlsConfig.tls_connector at h
    cases hp : cfg.provider <;> rw [hp] at h
    · cases hr : cfg.openssl_raw <;> rw [hr] at h
      · exact ok_domain_openssl_cert _ _ _ _ h
      · exact ok_domain_openssl_raw _ _ _ h
    · cases hr : cfg.rustls_raw <;> rw [hr] at h
      · exact ok_domain_rustls_cert _ _ _ _ h
      · exact ok_domain_rustls_raw _ _ _ h
  rw [hres]
  unfold ClientTlsConfig.resolvedDomain
  cases cfg.domain <;> rfl

/-- C2 witness: resolving OpenSSL settings with no domain override against
target `https://example.com` yields a connector whose verification domain
is `https://example.com`. -/
theorem tls_resolution_domain_w :
    ClientTlsConfig.with_openssl.tls_connector uriEx = .ok connEx ∧
    connEx.domain = "https://example.com" :=
  ⟨rfl, tls_resolution_domain ClientTlsConfig.with_openssl uriEx connEx rfl⟩

/-- C3: when a raw override is present for the selected provider,
resolution builds the connector from the raw backend object plus the
resolved domain, ignoring `cert`/`identity` (replacing them does not
change the result); when no raw override is present for the selected
provider, the connector is built from the optional certificate, optional
identity, and the resolved domain. -/
theorem tls_raw_override_precedence (cfg : ClientTlsConfig) (uri : Uri) :
    (∀ r, cfg.provider = .openSsl → cfg.openssl_raw = some r →
      cfg.tls_connector uri = TlsConnector.new_with_openssl_raw r (cfg.resolvedDomain uri) ∧
      ∀ c i, ({ cfg with cert := c, identity := i }).tls_connector uri
        = cfg.tls_connector uri) ∧
    (cfg.provider = .openSsl → cfg.openssl_raw = none →
      cfg.tls_connector uri =
        TlsConnector.new_with_openssl_cert cfg.cert cfg.identity (cfg.resolvedDomain uri)) ∧
    (∀ r, cfg.provider = .rustls → cfg.rustls_raw = some r →
      cfg.tls_connector uri = TlsConnector.new_with_rustls_raw r (cfg.resolvedDomain uri) ∧
      ∀ c i, ({ cfg with cert := c, identity := i }).tls_connector uri
        = cfg.tls_connector uri) ∧
    (cfg.provider = .rustls → cfg.rustls_raw = none →
      cfg.tls_connector uri =
        TlsConnector.new_with_rustls_cert cfg.cert cfg.identity (cfg.resolvedDomain uri)) := by
  obtain ⟨p, dom, cert, ident, oraw, rraw⟩ := cfg
  refine ⟨?_, ?_, ?_, ?_⟩
  · rintro r rfl rfl
    exact ⟨rfl, fun c i => rfl⟩
  · rintro rfl rfl
    rfl
  · rintro r rfl rfl
    exact ⟨rfl, fun c i => rfl⟩
  · rintro rfl rfl
    rfl

/-- C3 witness: settings with both a CA certificate and an OpenSSL raw
override resolve through the raw constructor, ignoring the (even
rejected) certificate. -/
theorem tls_raw_override_precedence_w :
    rawCfgEx.tls_connector uriEx
      = TlsConnector.new_with_openssl_raw ⟨7, true⟩ (rawCfgEx.resolvedDomain uriEx) ∧
    rawCfgEx.tls_connector uriEx = .ok (.opensslRaw ⟨7, true⟩ "https://example.com") ∧
    rawCfgEx.cert = some badCert :=
  ⟨((tls_raw_override_precedence rawCfgEx uriEx).1 ⟨7, true⟩ rfl rfl).1, rfl, rfl⟩

/-- C4: for every valid address text, `fromText` (`TryFrom<String>`)
returns `Ok` with an endpoint whose stored target renders back to the
input; for every malformed text or byte sequence, the fallible
constructors return `InvalidUriBytes` and never return an endpoint (and
being total `Except`-valued functions, never panic). -/
theorem fromText_parse_contract :
    (∀ s : String, isValidUriBytes (intoBytes s) = true →
      ∃ e : Endpoint, Endpoint.tryFromString s = .ok e ∧ e.uri.render = s) ∧
    (∀ s : String, isValidUriBytes (intoBytes s) = false →
      Endpoint.tryFromString s = .error .invalidUriBytes ∧
      ∀ e : Endpoint, Endpoint.tryFromString s ≠ .ok e) ∧
    (∀ bs : Bytes, isValidUriBytes bs = false →
      Endpoint.from_shared bs = .error .invalidUriBytes ∧
      ∀ e : Endpoint, Endpoint.from_shared bs ≠ .ok e) := by
  have herr : ∀ bs : Bytes, isValidUriBytes bs = false →
      Endpoint.from_shared bs = .error .invalidUriBytes := by
    intro bs h
    unfold Endpoint.from_shared Uri.from_shared
    simp [h]
  refine ⟨?_, ?_, ?_⟩
  · intro s h
    refine ⟨Endpoint.fromUri ⟨intoBytes s⟩, ?_, render_intoBytes s⟩
    unfold Endpoint.tryFromString Endpoint.from_shared Uri.from_shared
    simp [h]
  · intro s h
    refine ⟨herr _ h, fun e he => ?_⟩
    rw [Endpoint.tryFromString, herr _ h] at he
    exact nomatch he
  · intro bs h
    refine ⟨herr _ h, fun e he => ?_⟩
    rw [herr _ h] at he
    exact nomatch he

/-- C4 witness: `https://example.com` parses and renders back exactly;
`not a uri` is rejected with `InvalidUriBytes`. -/
theorem fromText_parse_contract_w :
    (∃ e : Endpoint, Endpoint.tryFromString "https://example.com" = .ok e ∧
      e.uri.render = "https://example.com") ∧
    Endpoint.tryFromString "not a uri" = .error .invalidUriBytes :=
  ⟨fromText_parse_contract.1 "https://example.com" (by decide),
   (fromText_parse_contract.2.1 "not a uri" (by decide)).1⟩

/-- C5: every setter is idempotent-overwrite: calling the same setter with
`v1` and then `v2` leaves exactly the value corresponding to `v2` stored
(for `tls_config`, the connector resolved from the second settings
value). -/
theorem setters_last_write_wins (e : Endpoint) :
    (∀ d1 d2 : Duration, ((e.setTimeout d1).setTimeout d2).timeout = some d2) ∧
    (∀ n1 n2 : Nat,
      ((e.setConcurrencyLimit n1).setConcurrencyLimit n2).concurrency_limit = some n2) ∧
    (∀ (l1 l2 : Nat) (w1 w2 : Duration),
      ((e.setRateLimit l1 w1).setRateLimit l2 w2).rate_limit = some (l2, w2)) ∧
    (∀ s1 s2 : Option Nat,
      ((e.initial_stream_window_size s1).initial_stream_window_size s2).init_stream_window_size
        = s2) ∧
    (∀ s1 s2 : Option Nat,
      ((e.initial_connection_window_size s1).initial_connection_window_size
        s2).init_connection_window_size = s2) ∧
    (∀ f1 f2 : HeaderMap → HeaderMap,
      ((e.intercept_headers f1).intercept_headers f2).interceptor_headers = some f2) ∧
    (∀ (cfg1 cfg2 : ClientTlsConfig) (e1 e2 : Endpoint) (c2 : TlsConnector),
      e.tls_config cfg1 = some e1 → e1.tls_config cfg2 = some e2 →
      cfg2.tls_connector e1.uri = .ok c2 → e2.tls = some c2) := by
  refine ⟨fun d1 d2 => rfl, fun n1 n2 => rfl, fun l1 l2 w1 w2 => rfl, fun s1 s2 => rfl,
    fun s1 s2 => rfl, fun f1 f2 => rfl, ?_⟩
  intro cfg1 cfg2 e1 e2 c2 _h1 h2 hc
  unfold Endpoint.tls_config at h2
  rw [hc] at h2
  cases h2
  rfl

/-- C5 witness: `setTimeout 5s` then `setTimeout 2s` leaves exactly `2s`
stored; two `tls_config` calls leave exactly the connector resolved from
the second settings value. -/
theorem setters_last_write_wins_w :
    ((endpointEx.setTimeout (Duration.from_secs 5)).setTimeout
        (Duration.from_secs 2)).timeout = some (Duration.from_secs 2) ∧
    endpointEx.tls_config ClientTlsConfig.with_openssl = some epTls ∧
    epTls.tls_config ClientTlsConfig.with_openssl = some epTls ∧
    epTls.tls = some connEx :=
  ⟨(setters_last_write_wins endpointEx).1 (Duration.from_secs 5) (Duration.from_secs 2),
   rfl, rfl,
   (setters_last_write_wins endpointEx).2.2.2.2.2.2 ClientTlsConfig.with_openssl
     ClientTlsConfig.with_openssl epTls epTls connEx rfl rfl rfl⟩

/-- C6: every one of the four target constructors (`From<Uri>`,
`from_static`, `from_shared`, `TryFrom<String>`) produces an endpoint
whose optional fields — timeout, concurrency limit, rate limit, TLS
connector, buffer size, header interceptor, and both window sizes — are
all absent. -/
theorem constructors_all_absent :
    (∀ u : Uri, (Endpoint.fromUri u).allOptionalsAbsent) ∧
    (∀ (s : String) (e : Endpoint), Endpoint.from_static s = some e → e.allOptionalsAbsent) ∧
    (∀ (bs : Bytes) (e : Endpoint), Endpoint.from_shared bs = .ok e → e.allOptionalsAbsent) ∧
    (∀ (s : String) (e : Endpoint), Endpoint.tryFromString s = .ok e → e.allOptionalsAbsent) := by
  have habs : ∀ u : Uri, (Endpoint.fromUri u).allOptionalsAbsent :=
    fun u => ⟨rfl, rfl, rfl, rfl, rfl, rfl, rfl, rfl⟩
  have hsh : ∀ (bs : Bytes) (e : Endpoint),
      Endpoint.from_shared bs = .ok e → e.allOptionalsAbsent := by
    intro bs e he
    unfold Endpoint.from_shared Uri.from_shared at he
    split at he
    · cases he
      exact habs _
    · exact nomatch he
  refine ⟨habs, ?_, hsh, fun s e he => hsh _ _ he⟩
  intro s e he
  unfold Endpoint.from_static Uri.from_static Uri.from_shared at he
  split at he
  · cases he
    exact habs _
  · exact nomatch he

/-- C6 witness: the endpoint built from `https://example.com` has every
optional field absent (in particular, its TLS connector). -/
theorem constructors_all_absent_w :
    Endpoint.from_static "https://example.com" = some (Endpoint.fromUri uriEx) ∧
    (Endpoint.fromUri uriEx).allOptionalsAbsent :=
  ⟨rfl, constructors_all_absent.2.1 "https://example.com" (Endpoint.fromUri uriEx) rfl⟩

/-- C7: the trusted-constant conversion (`TryFrom<&'static str>`) uses the
uninhabited error type `Never` — no value of it exists — so every result
it produces is `Ok`. -/
theorem trusted_constant_never_fails :
    (Never → False) ∧
    (∀ (s : String) (r : Except Never Endpoint),
      Endpoint.tryFromStaticStr s = some r → ∃ e : Endpoint, r = .ok e) := by
  constructor
  · intro hn
    exact nomatch hn
  intro s r hr
  unfold Endpoint.tryFromStaticStr at hr
  cases hs : Endpoint.from_static s <;> rw [hs] at hr
  · exact nomatch hr
  · cases hr
    exact ⟨_, rfl⟩

/-- C7 witness: converting the static string `https://example.com`
returns `Ok`. -/
theorem trusted_constant_never_fails_w :
    Endpoint.tryFromStaticStr "https://example.com"
      = some (.ok (Endpoint.fromUri uriEx)) ∧
    (∃ e : Endpoint, (Except.ok (Endpoint.fromUri uriEx) : Except Never Endpoint) = .ok e) :=
  ⟨rfl, trusted_constant_never_fails.2 "https://example.com"
    (.ok (Endpoint.fromUri uriEx)) rfl⟩

/-- C8: `fromText` (`TryFrom<String>`) produces the same result as
`from_shared` applied to the text's byte conversion, in both the `Ok`
value and the error case; it also coincides with the spec-side
`fromTextSpec`. -/
theorem fromText_via_byte_conversion (s : String) :
    Endpoint.tryFromString s = Endpoint.from_shared (intoBytes s) ∧
    Endpoint.tryFromString s = fromTextSpec s := ⟨rfl, rfl⟩

/-- C9: the reserved `buffer_size` field is never read or acted upon: every
constructor leaves it absent, every setter preserves it, and every
operation commutes with overwriting it (so no result depends on its
value). -/
theorem buffer_size_reserved (e : Endpoint) (v : Option Nat) :
    (∀ u : Uri, (Endpoint.fromUri u).buffer_size = none) ∧
    (∀ (s : String) (e' : Endpoint), Endpoint.from_static s = some e' →
      e'.buffer_size = none) ∧
    (∀ (bs : Bytes) (e' : Endpoint), Endpoint.from_shared bs = .ok e' →
      e'.buffer_size = none) ∧
    (∀ (s : String) (e' : Endpoint), Endpoint.tryFromString s = .ok e' →
      e'.buffer_size = none) ∧
    (∀ d, (e.withBuf v).setTimeout d = (e.setTimeout d).withBuf v ∧
      (e.setTimeout d).buffer_size = e.buffer_size) ∧
    (∀ n, (e.withBuf v).setConcurrencyLimit n = (e.setConcurrencyLimit n).withBuf v ∧
      (e.setConcurrencyLimit n).buffer_size = e.buffer_size) ∧
    (∀ l w, (e.withBuf v).setRateLimit l w = (e.setRateLimit l w).withBuf v ∧
      (e.setRateLimit l w).buffer_size = e.buffer_size) ∧
    (∀ s, (e.withBuf v).initial_stream_window_size s
        = (e.initial_stream_window_size s).withBuf v ∧
      (e.initial_stream_window_size s).buffer_size = e.buffer_size) ∧
    (∀ s, (e.withBuf v).initial_connection_window_size s
        = (e.initial_connection_window_size s).withBuf v ∧
      (e.initial_connection_window_size s).buffer_size = e.buffer_size) ∧
    (∀ f, (e.withBuf v).intercept_headers f = (e.intercept_headers f).withBuf v ∧
      (e.intercept_headers f).buffer_size = e.buffer_size) ∧
    (∀ cfg, (e.withBuf v).tls_config cfg = (e.tls_config cfg).map (·.withBuf v)) := by
  refine ⟨fun u => rfl, ?_, ?_, ?_, fun d => ⟨rfl, rfl⟩, fun n => ⟨rfl, rfl⟩,
    fun l w => ⟨rfl, rfl⟩, fun s => ⟨rfl, rfl⟩, fun s => ⟨rfl, rfl⟩, fun f => ⟨rfl, rfl⟩, ?_⟩
  · intro s e' he
    unfold Endpoint.from_static Uri.from_static Uri.from_shared at he
    split at he
    · cases he
      rfl
    · exact nomatch he
  · intro bs e' he
    unfold Endpoint.from_shared Uri.from_shared at he
    split at he
    · cases he
      rfl
    · exact nomatch he
  · intro s e' he
    unfold Endpoint.tryFromString Endpoint.from_shared Uri.from_shared at he
    split at he
    · cases he
      rfl
    · exact nomatch he
  · intro cfg
    unfold Endpoint.tls_config
    rw [show (e.withBuf v).uri = e.uri from rfl]
    cases hc : cfg.tls_connector e.uri <;> rfl

/-- C9 witness: at the example endpoint, the constructor leaves the buffer
field absent and `tls_config` commutes with overwriting it. -/
theorem buffer_size_reserved_w :
    (Endpoint.fromUri uriEx).buffer_size = none ∧
    (endpointEx.withBuf (some 4096)).tls_config ClientTlsConfig.with_openssl
      = (endpointEx.tls_config ClientTlsConfig.with_openssl).map (·.withBuf (some 4096)) ∧
    Endpoint.from_static "https://example.com" = some (Endpoint.fromUri uriEx) :=
  ⟨(buffer_size_reserved endpointEx (some 4096)).2.1 "https://example.com"
     (Endpoint.fromUri uriEx) rfl,
   (buffer_size_reserved endpointEx (some 4096)).2.2.2.2.2.2.2.2.2.2
     ClientTlsConfig.with_openssl,
   rfl⟩

/-- C10: every setter modifies only its own field: after any of the seven
setters, the target URI and every field other than the one the setter
names hold exactly their prior values (for `tls_config`, in the
non-panicking case). -/
theorem setters_frame (e : Endpoint) :
    (∀ d, (e.setTimeout d).uri = e.uri ∧
      (e.setTimeout d).concurrency_limit = e.concurrency_limit ∧
      (e.setTimeout d).rate_limit = e.rate_limit ∧
      (e.setTimeout d).tls = e.tls ∧
      (e.setTimeout d).buffer_size = e.buffer_size ∧
      (e.setTimeout d).interceptor_headers = e.interceptor_headers ∧
      (e.setTimeout d).init_stream_window_size = e.init_stream_window_size ∧
      (e.setTimeout d).init_connection_window_size = e.init_connection_window_size) ∧
    (∀ n, (e.setConcurrencyLimit n).uri = e.uri ∧
      (e.setConcurrencyLimit n).timeout = e.timeout ∧
      (e.setConcurrencyLimit n).rate_limit = e.rate_limit ∧
      (e.setConcurrencyLimit n).tls = e.tls ∧
      (e.setConcurrencyLimit n).buffer_size = e.buffer_size ∧
      (e.setConcurrencyLimit n).interceptor_headers = e.interceptor_headers ∧
      (e.setConcurrencyLimit n).init_stream_window_size = e.init_stream_window_size ∧
      (e.setConcurrencyLimit n).init_connection_window_size = e.init_connection_window_size) ∧
    (∀ l w, (e.setRateLimit l w).uri = e.uri ∧
      (e.setRateLimit l w).timeout = e.timeout ∧
      (e.setRateLimit l w).concurrency_limit = e.concurrency_limit ∧
      (e.setRateLimit l w).tls = e.tls ∧
      (e.setRateLimit l w).buffer_size = e.buffer_size ∧
      (e.setRateLimit l w).interceptor_headers = e.interceptor_headers ∧
      (e.setRateLimit l w).init_stream_window_size = e.init_stream_window_size ∧
      (e.setRateLimit l w).init_connection_window_size = e.init_connection_window_size) ∧
    (∀ s, (e.initial_stream_window_size s).uri = e.uri ∧
      (e.initial_stream_window_size s).timeout = e.timeout ∧
      (e.initial_stream_window_size s).concurrency_limit = e.concurrency_limit ∧
      (e.initial_stream_window_size s).rate_limit = e.rate_limit ∧
      (e.initial_stream_window_size s).tls = e.tls ∧
      (e.initial_stream_window_size s).buffer_size = e.buffer_size ∧
      (e.initial_stream_window_size s).interceptor_headers = e.interceptor_headers ∧
      (e.initial_stream_window_size s).init_connection_window_size
        = e.init_connection_window_size) ∧
    (∀ s, (e.initial_connection_window_size s).uri = e.uri ∧
      (e.initial_connection_window_size s).timeout = e.timeout ∧
      (e.initial_connection_window_size s).concurrency_limit = e.concurrency_limit ∧
      (e.initial_connection_window_size s).rate_limit = e.rate_limit ∧
      (e.initial_connection_window_size s).tls = e.tls ∧
      (e.initial_connection_window_size s).buffer_size = e.buffer_size ∧
      (e.initial_connection_window_size s).interceptor_headers = e.interceptor_headers ∧
      (e.initial_connection_window_size s).init_stream_window_size
        = e.init_stream_window_size) ∧
    (∀ f, (e.intercept_headers f).uri = e.uri ∧
      (e.intercept_headers f).timeout = e.timeout ∧
      (e.intercept_headers f).concurrency_limit = e.concurrency_limit ∧
      (e.intercept_headers f).rate_limit = e.rate_limit ∧
      (e.intercept_headers f).tls = e.tls ∧
      (e.intercept_headers f).buffer_size = e.buffer_size ∧
      (e.intercept_headers f).init_stream_window_size = e.init_stream_window_size ∧
      (e.intercept_headers f).init_connection_window_size = e.init_connection_window_size) ∧
    (∀ cfg e', e.tls_config cfg = some e' →
      e'.uri = e.uri ∧ e'.timeout = e.timeout ∧
      e'.concurrency_limit = e.concurrency_limit ∧ e'.rate_limit = e.rate_limit ∧
      e'.buffer_size = e.buffer_size ∧ e'.interceptor_headers = e.interceptor_headers ∧
      e'.init_stream_window_size = e.init_stream_window_size ∧
      e'.init_connection_window_size = e.init_connection_window_size) := by
  refine ⟨fun d => ⟨rfl, rfl, rfl, rfl, rfl, rfl, rfl, rfl⟩,
    fun n => ⟨rfl, rfl, rfl, rfl, rfl, rfl, rfl, rfl⟩,
    fun l w => ⟨rfl, rfl, rfl, rfl, rfl, rfl, rfl, rfl⟩,
    fun s => ⟨rfl, rfl, rfl, rfl, rfl, rfl, rfl, rfl⟩,
    fun s => ⟨rfl, rfl, rfl, rfl, rfl, rfl, rfl, rfl⟩,
    fun f => ⟨rfl, rfl, rfl, rfl, rfl, rfl, rfl, rfl⟩, ?_⟩
  intro cfg e' he
  unfold Endpoint.tls_config at he
  split at he
  · cases he
    exact ⟨rfl, rfl, rfl, rfl, rfl, rfl, rfl, rfl⟩
  · exact nomatch he

/-- C10 witness: at the example endpoint, `tls_config` leaves the target
and unrelated fields unchanged, and `setTimeout` leaves the target
unchanged. -/
theorem setters_frame_w :
    endpointEx.tls_config ClientTlsConfig.with_openssl = some epTls ∧
    epTls.uri = endpointEx.uri ∧ epTls.timeout = endpointEx.timeout ∧
    (endpointEx.setTimeout (Duration.from_secs 5)).uri = endpointEx.uri :=
  ⟨rfl,
   ((setters_frame endpointEx).2.2.2.2.2.2 ClientTlsConfig.with_openssl epTls rfl).1,
   ((setters_frame endpointEx).2.2.2.2.2.2 ClientTlsConfig.with_openssl epTls rfl).2.1,
   ((setters_frame endpointEx).1 (Duration.from_secs 5)).1⟩

end Tonic
